import Mathlib

/-!
Shallow embedding of the generic manifold layer of the `spline` repository
(`src/lie/base/manifold_element.h`, namespace `mana`): the CRTP contract
`ManifoldElement`, the chart type `ManifoldChart`, and the geodesic type
`ManifoldGeodesic`, together with a realization of the planar-rotation
manifold modelled from the specification (its source `lie/so2` is declared
in the BUILD files but is not present under `src/`).

The CRTP pattern of the C++ source (a `Derived` class supplying
`FromPointImpl`, `ProjectImpl`, `IsValidImpl`, `PointImpl`,
`DistanceToImpl`, `InterpolateImpl`) is embedded as a record of operations
`ManifoldOps`; the generic member functions of `ManifoldElement<Derived>`
become Lean functions taking the record as their first argument, exactly
mirroring each C++ function body.
-/

namespace mana

/-- Modelled from the spec: `lie/base/constants.h` is referenced by the BUILD
file but is not under `src/`. The spec describes it as a tolerance provider
that "supplies a default closeness threshold per scalar type"
(`Constants<Scalar>::kEpsilon` in the source's default arguments). -/
class Constants (Scalar : Type) where
  kEpsilon : Scalar

/-- Modelled from the spec: a concrete default closeness threshold for the
rational scalar type used to instantiate the generic layer (the spec leaves
the numeric value out of scope, requiring only a per-scalar default). -/
instance instConstantsRat : Constants ℚ :=
  ⟨1 / 1000000⟩

/-- The implementation surface a `Derived` manifold type must supply, listed
in the header comment of `ManifoldElement` (manifold_element.h): static
constructors/validators plus distance and interpolation. -/
structure ManifoldOps (Element Scalar TangentVector EmbeddingPoint : Type) where
  FromPointImpl : EmbeddingPoint → Element
  ProjectImpl : EmbeddingPoint → EmbeddingPoint
  IsValidImpl : EmbeddingPoint → Scalar → Bool
  PointImpl : Element → EmbeddingPoint
  DistanceToImpl : Element → Element → Scalar
  InterpolateImpl : Element → Element → Scalar → Element

variable {Element Scalar TangentVector EmbeddingPoint : Type}

/-- `ManifoldElement<Derived>::FromPoint`: delegates to `Derived::FromPointImpl`. -/
def ManifoldElement.FromPoint (ops : ManifoldOps Element Scalar TangentVector EmbeddingPoint)
    (point : EmbeddingPoint) : Element :=
  ops.FromPointImpl point

/-- `ManifoldElement<Derived>::Project`: delegates to `Derived::ProjectImpl`. -/
def ManifoldElement.Project (ops : ManifoldOps Element Scalar TangentVector EmbeddingPoint)
    (point : EmbeddingPoint) : EmbeddingPoint :=
  ops.ProjectImpl point

/-- `ManifoldElement<Derived>::IsValid`: delegates to `Derived::IsValidImpl`;
the tolerance defaults to `Constants<Scalar>::kEpsilon` as in the C++
declaration. -/
def ManifoldElement.IsValid [Constants Scalar]
    (ops : ManifoldOps Element Scalar TangentVector EmbeddingPoint)
    (point : EmbeddingPoint) (tolerance : Scalar := Constants.kEpsilon) : Bool :=
  ops.IsValidImpl point tolerance

/-- `ManifoldElement<Derived>::Point`: delegates to `Derived::PointImpl`. -/
def ManifoldElement.Point (ops : ManifoldOps Element Scalar TangentVector EmbeddingPoint)
    (self : Element) : EmbeddingPoint :=
  ops.PointImpl self

/-- `ManifoldElement<Derived>::DistanceTo`: delegates to `Derived::DistanceToImpl`. -/
def ManifoldElement.DistanceTo (ops : ManifoldOps Element Scalar TangentVector EmbeddingPoint)
    (self rhs : Element) : Scalar :=
  ops.DistanceToImpl self rhs

/-- `ManifoldElement<Derived>::Interpolate`: delegates to `Derived::InterpolateImpl`. -/
def ManifoldElement.Interpolate (ops : ManifoldOps Element Scalar TangentVector EmbeddingPoint)
    (self rhs : Element) (fraction : Scalar) : Element :=
  ops.InterpolateImpl self rhs fraction

/-- `ManifoldElement<Derived>::EqualTo`: `DistanceTo(rhs) < tolerance`; the
tolerance defaults to `Constants<Scalar>::kEpsilon` as in the C++ declaration. -/
def ManifoldElement.EqualTo [LT Scalar] [DecidableRel ((· < ·) : Scalar → Scalar → Prop)]
    [Constants Scalar] (ops : ManifoldOps Element Scalar TangentVector EmbeddingPoint)
    (self rhs : Element) (tolerance : Scalar := Constants.kEpsilon) : Bool :=
  decide (ManifoldElement.DistanceTo ops self rhs < tolerance)

/-- `ManifoldElement<Derived>::operator==`: `EqualTo(rhs)` with the default
tolerance. -/
def ManifoldElement.opEq [LT Scalar] [DecidableRel ((· < ·) : Scalar → Scalar → Prop)]
    [Constants Scalar] (ops : ManifoldOps Element Scalar TangentVector EmbeddingPoint)
    (self rhs : Element) : Bool :=
  ManifoldElement.EqualTo ops self rhs

/-- `ManifoldElement<Derived>::operator!=`: `!(*this == rhs)`. -/
def ManifoldElement.opNe [LT Scalar] [DecidableRel ((· < ·) : Scalar → Scalar → Prop)]
    [Constants Scalar] (ops : ManifoldOps Element Scalar TangentVector EmbeddingPoint)
    (self rhs : Element) : Bool :=
  !(ManifoldElement.opEq ops self rhs)

/-- `ManifoldChart<Derived>`: stores the single origin element `origin_`. -/
structure ManifoldChart (Element : Type) where
  origin_ : Element

/-- `ManifoldChart<Derived>::ToTangent`: the body in the source is a stub
(`// TODO(erik): implement.` followed by `return {};`), so it returns the
value-initialized (default) tangent vector for every chart and argument. -/
def ManifoldChart.ToTangent (TangentVector : Type) [Inhabited TangentVector]
    (chart : ManifoldChart Element) (rhs : Element) : TangentVector :=
  default

/-- `ManifoldChart<Derived>::ToManifold`: the body in the source is a stub
(`// TODO(erik): implement.` followed by `return {};`), so it returns the
value-initialized (default) element for every chart and argument. -/
def ManifoldChart.ToManifold [Inhabited Element]
    (chart : ManifoldChart Element) (rhs : TangentVector) : Element :=
  default

/-- `ManifoldGeodesic<Derived>`: stores the start and end points `beg_, end_`. -/
structure ManifoldGeodesic (Element : Type) where
  beg_ : Element
  end_ : Element

/-- `ManifoldGeodesic<Derived>::beg`: read accessor for `beg_`. -/
def ManifoldGeodesic.beg (g : ManifoldGeodesic Element) : Element :=
  g.beg_

/-- `ManifoldGeodesic<Derived>::end`: read accessor for `end_` (`end` is a
Lean keyword, hence the name `endp`). -/
def ManifoldGeodesic.endp (g : ManifoldGeodesic Element) : Element :=
  g.end_

/-- `ManifoldElement<Derived>::GeodesicTo`: `Geodesic(derived(), rhs)` — a
total constructor call with no validation of either point. -/
def ManifoldElement.GeodesicTo (self rhs : Element) : ManifoldGeodesic Element :=
  ManifoldGeodesic.mk self rhs

/-- `ManifoldGeodesic<Derived>::Interpolate`: `beg_.Interpolate(end_, fraction)`. -/
def ManifoldGeodesic.Interpolate (ops : ManifoldOps Element Scalar TangentVector EmbeddingPoint)
    (g : ManifoldGeodesic Element) (fraction : Scalar) : Element :=
  ManifoldElement.Interpolate ops g.beg_ g.end_ fraction

/-- `ManifoldGeodesic<Derived>::Length`: `beg_.DistanceTo(end_)`. -/
def ManifoldGeodesic.Length (ops : ManifoldOps Element Scalar TangentVector EmbeddingPoint)
    (g : ManifoldGeodesic Element) : Scalar :=
  ManifoldElement.DistanceTo ops g.beg_ g.end_

/-- Modelled from the spec: the angle-utility interface (`utils/angles`,
referenced by the BUILD files but not under `src/`) wraps a raw angle into
the canonical `(-π, π]` representative. Angles are represented here in units
of π, so the model is exact over `ℚ` and the canonical range becomes
`(-1, 1]`: `wrapAngle q` is the unique representative of `q` modulo `2`
lying in `(-1, 1]`. -/
def wrapAngle (q : ℚ) : ℚ :=
  q - 2 * (Int.ceil ((q - 1) / 2) : ℚ)

/-- Modelled from the spec: an element of the planar-rotation group realization
(`lie/so2`, declared in the BUILD files but not under `src/`). The spec allows
an angle as the realization's internal representation; the angle is stored in
units of π. Value-initialization (the `return {};` of the chart stubs) gives
the zero angle, i.e. the identity rotation. -/
structure SO2 where
  angle : ℚ
deriving DecidableEq, Inhabited

/-- Modelled from the spec: the planar-rotation realization of the manifold
contract, with angles in units of π. Distance is the absolute wrapped angular
difference (shortest arc); interpolation moves along the shortest arc by the
given fraction (the spec's geodesic interpolation, supporting extrapolation
for fractions outside `[0, 1]`); projection wraps the angle to its canonical
representative; with the angle representation every embedding point lies on
the manifold, so validity always holds. -/
def so2Ops : ManifoldOps SO2 ℚ ℚ ℚ where
  FromPointImpl p := ⟨p⟩
  ProjectImpl p := wrapAngle p
  IsValidImpl _ _ := true
  PointImpl e := e.angle
  DistanceToImpl a b := |wrapAngle (b.angle - a.angle)|
  InterpolateImpl a b f := ⟨a.angle + f * wrapAngle (b.angle - a.angle)⟩

theorem wrapAngle_zero : wrapAngle 0 = 0 := by
  unfold wrapAngle
  norm_num

theorem wrapAngle_mem (q : ℚ) : -1 < wrapAngle q ∧ wrapAngle q ≤ 1 := by
  unfold wrapAngle
  have hle := Int.le_ceil ((q - 1) / 2)
  have hlt := Int.ceil_lt_add_one ((q - 1) / 2)
  constructor
  · linarith
  · linarith

theorem wrapAngle_two_int (k : ℤ) : wrapAngle (2 * (k : ℚ)) = 0 := by
  unfold wrapAngle
  have h : ((2 * (k : ℚ) - 1) / 2) = (-(1 / 2) : ℚ) + (k : ℚ) := by ring
  rw [h, Int.ceil_add_int]
  have h2 : Int.ceil ((-(1 / 2) : ℚ)) = 0 := by norm_num
  rw [h2]
  push_cast
  ring

theorem SO2.default_eq : (default : SO2) = SO2.mk 0 :=
  rfl

theorem rat_default_eq : (default : ℚ) = 0 :=
  rfl

/-- A single call made on a geodesic object: either `Interpolate` at some
fraction, or `Length`. Used to express that a sequence of such calls leaves
the geodesic's stored fields unchanged (both methods are `const` and their
bodies assign no field). -/
inductive GeodesicCall (Scalar : Type) where
  | interpolate (fraction : Scalar)
  | length

/-- Run a sequence of `const`-method calls on a geodesic, threading the
object's state through each call. Each call computes its result from the
stored fields exactly as the source does and, since the method bodies assign
no field, hands the same object to the next call; results are collected
(`Element` results from `Interpolate`, `Scalar` results from `Length`). -/
def ManifoldGeodesic.runCalls (ops : ManifoldOps Element Scalar TangentVector EmbeddingPoint)
    (g : ManifoldGeodesic Element) :
    List (GeodesicCall Scalar) → ManifoldGeodesic Element × List (Element ⊕ Scalar)
  | [] => (g, [])
  | c :: cs =>
    let value : Element ⊕ Scalar :=
      match c with
      | .interpolate f => Sum.inl (ManifoldGeodesic.Interpolate ops g f)
      | .length => Sum.inr (ManifoldGeodesic.Length ops g)
    let rest := ManifoldGeodesic.runCalls ops g cs
    (rest.1, value :: rest.2)

/-- Claim C2: in the source as written, `ManifoldChart::ToTangent` and
`ManifoldChart::ToManifold` return a default-constructed (value-initialized,
zero) value for every input, regardless of the chart's origin and of the
argument, instead of the documented log/exp-based formulas. -/
theorem C2_chart_maps_return_default :
    ∀ (E V : Type) [instE : Inhabited E] [instV : Inhabited V]
      (chart : ManifoldChart E) (e : E) (v : V),
      ManifoldChart.ToTangent V chart e = default ∧
      ManifoldChart.ToManifold chart v = default :=
  fun _ _ _ _ _ _ _ => ⟨rfl, rfl⟩

/-- Claim C3: `EqualTo(rhs, tolerance)` returns true exactly when
`DistanceTo(rhs) < tolerance` (strict inequality); `operator==` returns
`EqualTo` at the default tolerance `Constants<Scalar>::kEpsilon`, and
`operator!=` returns the negation of `operator==`. -/
theorem C3_equalto_strict_and_operators [LT Scalar]
    [DecidableRel ((· < ·) : Scalar → Scalar → Prop)] [Constants Scalar]
    (ops : ManifoldOps Element Scalar TangentVector EmbeddingPoint)
    (a b : Element) (t : Scalar) :
    (ManifoldElement.EqualTo ops a b t = true ↔ ManifoldElement.DistanceTo ops a b < t) ∧
    ManifoldElement.opEq ops a b = ManifoldElement.EqualTo ops a b Constants.kEpsilon ∧
    ManifoldElement.opNe ops a b = !ManifoldElement.opEq ops a b :=
  ⟨decide_eq_true_iff, rfl, rfl⟩

/-- Claim C5: for every geodesic `g` and fraction `f`, `g.Interpolate(f)`
equals `g.beg().Interpolate(g.end(), f)`, and `g.Length()` equals
`g.beg().DistanceTo(g.end())`. -/
theorem C5_geodesic_delegates
    (ops : ManifoldOps Element Scalar TangentVector EmbeddingPoint)
    (g : ManifoldGeodesic Element) (f : Scalar) :
    ManifoldGeodesic.Interpolate ops g f =
      ManifoldElement.Interpolate ops (ManifoldGeodesic.beg g) (ManifoldGeodesic.endp g) f ∧
    ManifoldGeodesic.Length ops g =
      ManifoldElement.DistanceTo ops (ManifoldGeodesic.beg g) (ManifoldGeodesic.endp g) :=
  ⟨rfl, rfl⟩

/-- Claim C6: the geodesic returned by `a.GeodesicTo(b)` has `a` as its begin
point and `b` as its end point; the constructor is a total function, so no
validation of either point is performed. -/
theorem C6_geodesicto_endpoints (a b : Element) :
    ManifoldGeodesic.beg (ManifoldElement.GeodesicTo a b) = a ∧
    ManifoldGeodesic.endp (ManifoldElement.GeodesicTo a b) = b :=
  ⟨rfl, rfl⟩

/-- Claim C7: when the caller omits the tolerance argument, `IsValid` and
`EqualTo` use exactly the tolerance provider's default for the scalar type
(`Constants<Scalar>::kEpsilon`), and the only comparison performed is the
one against that default — no other absolute epsilon enters. -/
theorem C7_default_tolerance [LT Scalar]
    [DecidableRel ((· < ·) : Scalar → Scalar → Prop)] [Constants Scalar]
    (ops : ManifoldOps Element Scalar TangentVector EmbeddingPoint)
    (point : EmbeddingPoint) (a b : Element) :
    ManifoldElement.IsValid ops point = ops.IsValidImpl point Constants.kEpsilon ∧
    ManifoldElement.EqualTo ops a b =
      decide (ManifoldElement.DistanceTo ops a b < Constants.kEpsilon) :=
  ⟨rfl, rfl⟩

/-- Claim C8: `ManifoldChart::ToTangent` is insensitive to the chart's state:
for any two charts built from different origin elements and any two argument
elements, the two calls return the same tangent vector (two-run independence
of the as-written stub). -/
theorem C8_totangent_origin_independent {E V : Type} [Inhabited V]
    (origin1 origin2 : E) (h : origin1 ≠ origin2) (rhs1 rhs2 : E) :
    ManifoldChart.ToTangent V (ManifoldChart.mk origin1) rhs1 =
      ManifoldChart.ToTangent V (ManifoldChart.mk origin2) rhs2 :=
  rfl

/-- Witness for C8 at the planar-rotation instantiation: the two chart
origins differ, yet `ToTangent` returns the same tangent vector. -/
theorem C8_totangent_origin_independent_witness :
    SO2.mk 0 ≠ SO2.mk 1 ∧
    ManifoldChart.ToTangent ℚ (ManifoldChart.mk (SO2.mk 0)) (SO2.mk (1 / 4)) =
      ManifoldChart.ToTangent ℚ (ManifoldChart.mk (SO2.mk 1)) (SO2.mk (1 / 2)) :=
  ⟨by simp, C8_totangent_origin_independent (SO2.mk 0) (SO2.mk 1) (by simp) (SO2.mk (1 / 4))
    (SO2.mk (1 / 2))⟩

/-- Claim C9: a geodesic constructed from `(beg, end)` returns exactly those
elements from its `beg()`/`end()` accessors, and running any sequence of
`Interpolate`/`Length` calls leaves the stored begin and end elements
unchanged. -/
theorem C9_geodesic_frame
    (ops : ManifoldOps Element Scalar TangentVector EmbeddingPoint)
    (a b : Element) (calls : List (GeodesicCall Scalar)) :
    ManifoldGeodesic.beg (ManifoldGeodesic.mk a b) = a ∧
    ManifoldGeodesic.endp (ManifoldGeodesic.mk a b) = b ∧
    (ManifoldGeodesic.runCalls ops (ManifoldGeodesic.mk a b) calls).1 =
      ManifoldGeodesic.mk a b := by
  refine ⟨rfl, rfl, ?_⟩
  induction calls with
  | nil => rfl
  | cons c cs ih => simpa [ManifoldGeodesic.runCalls] using ih

/-- Claim C10: because `EqualTo` compares with strict inequality, whenever
the distance is non-negative and the tolerance is non-positive, `EqualTo`
returns false — in particular an element is not `EqualTo` itself at
tolerance zero even when its self-distance is exactly zero. -/
theorem C10_equalto_nonpositive_tolerance [Preorder Scalar] [Zero Scalar]
    [DecidableRel ((· < ·) : Scalar → Scalar → Prop)] [Constants Scalar]
    (ops : ManifoldOps Element Scalar TangentVector EmbeddingPoint)
    (a b : Element) (t : Scalar)
    (hdist : 0 ≤ ManifoldElement.DistanceTo ops a b) (ht : t ≤ 0) :
    ManifoldElement.EqualTo ops a b t = false := by
  apply decide_eq_false
  intro hlt
  exact absurd (lt_of_lt_of_le (lt_of_lt_of_le hlt ht) hdist) (lt_irrefl _)

/-- Witness for C10 at the planar-rotation instantiation: the identity
rotation has self-distance exactly zero, yet `EqualTo` at tolerance zero
returns false. -/
theorem C10_equalto_nonpositive_tolerance_witness :
    ManifoldElement.DistanceTo so2Ops (SO2.mk 0) (SO2.mk 0) = 0 ∧
    (0 : ℚ) ≤ ManifoldElement.DistanceTo so2Ops (SO2.mk 0) (SO2.mk 0) ∧
    (0 : ℚ) ≤ 0 ∧
    ManifoldElement.EqualTo so2Ops (SO2.mk 0) (SO2.mk 0) 0 = false := by
  have h : ManifoldElement.DistanceTo so2Ops (SO2.mk 0) (SO2.mk 0) = 0 := by
    simp [ManifoldElement.DistanceTo, so2Ops, wrapAngle_zero]
  exact ⟨h, le_of_eq h.symm, le_refl 0,
    C10_equalto_nonpositive_tolerance so2Ops (SO2.mk 0) (SO2.mk 0) 0 (le_of_eq h.symm)
      (le_refl 0)⟩

/-- Claim C4: interpolation at fraction 0 tolerance-equals the first element
and at fraction 1 tolerance-equals the second (default tolerance); fractions
outside `[0, 1]` are accepted by the same total geodesic parameterization —
shown by the spec's own extrapolation example, fraction 2 from the identity
toward rotation by π/4 (angle 1/4 in units of π) landing at rotation by π/2. -/
theorem C4_interpolate_endpoints_and_extrapolation (a b : SO2) :
    ManifoldElement.EqualTo so2Ops (ManifoldElement.Interpolate so2Ops a b 0) a = true ∧
    ManifoldElement.EqualTo so2Ops (ManifoldElement.Interpolate so2Ops a b 1) b = true ∧
    ManifoldElement.Interpolate so2Ops (SO2.mk 0) (SO2.mk (1 / 4)) 2 = SO2.mk (1 / 2) := by
  refine ⟨?_, ?_, ?_⟩
  · simp only [ManifoldElement.EqualTo, ManifoldElement.Interpolate,
      ManifoldElement.DistanceTo, so2Ops, decide_eq_true_eq]
    have h0 : a.angle - (a.angle + 0 * wrapAngle (b.angle - a.angle)) = 0 := by ring
    rw [h0, wrapAngle_zero]
    norm_num [Constants.kEpsilon, instConstantsRat]
  · simp only [ManifoldElement.EqualTo, ManifoldElement.Interpolate,
      ManifoldElement.DistanceTo, so2Ops, decide_eq_true_eq]
    have h1 : b.angle - (a.angle + 1 * wrapAngle (b.angle - a.angle)) =
        2 * ((Int.ceil ((b.angle - a.angle - 1) / 2) : ℤ) : ℚ) := by
      unfold wrapAngle
      ring
    rw [h1, wrapAngle_two_int]
    norm_num [Constants.kEpsilon, instConstantsRat]
  · simp only [ManifoldElement.Interpolate, so2Ops]
    have h2 : wrapAngle (1 / 4 - 0) = 1 / 4 := by
      unfold wrapAngle
      norm_num
    rw [h2]
    norm_num

/-- Claim C1 fails on the code as written: the chart maps are stubs, so the
round trip through the chart collapses every element to the default. At the
planar-rotation instantiation with chart origin the identity rotation and
element the rotation by π/2 (angle 1/2 in units of π),
`ToManifold(ToTangent(e))` is not tolerance-equal to `e`, and
`ToTangent(ToManifold(v))` for the tangent vector `v = 1/2` is not within
tolerance of `v`. -/
theorem C1_chart_roundtrip_fails :
    ManifoldElement.EqualTo so2Ops
        (ManifoldChart.ToManifold (ManifoldChart.mk (SO2.mk 0))
          (ManifoldChart.ToTangent ℚ (ManifoldChart.mk (SO2.mk 0)) (SO2.mk (1 / 2))))
        (SO2.mk (1 / 2)) = false ∧
    ¬(|ManifoldChart.ToTangent ℚ (ManifoldChart.mk (SO2.mk 0))
          (ManifoldChart.ToManifold (ManifoldChart.mk (SO2.mk 0)) ((1 : ℚ) / 2)) -
        (1 : ℚ) / 2| < Constants.kEpsilon) := by
  constructor
  · simp only [ManifoldChart.ToTangent, ManifoldChart.ToManifold, SO2.default_eq,
      ManifoldElement.EqualTo, ManifoldElement.DistanceTo, so2Ops, decide_eq_false_iff_not]
    have h : wrapAngle (1 / 2 - 0) = 1 / 2 := by
      unfold wrapAngle
      norm_num
    rw [h, abs_of_nonneg (by norm_num : (0 : ℚ) ≤ 1 / 2)]
    norm_num [Constants.kEpsilon, instConstantsRat]
  · simp only [ManifoldChart.ToTangent, rat_default_eq]
    rw [show (0 : ℚ) - 1 / 2 = -(1 / 2) by ring, abs_neg,
      abs_of_nonneg (by norm_num : (0 : ℚ) ≤ 1 / 2)]
    norm_num [Constants.kEpsilon, instConstantsRat]

end mana
